import Mathlib

/-!
Shallow embedding of `src/server.js`, a Fastify relay for the Calendly API.

Each route handler of the source becomes a pure Lean function from the
process state (the global `storedToken` variable), the relevant pieces of
the inbound request, and an oracle for the outcome of the single upstream
`fetch` call, to a `HandlerResult` recording the new token value, the
upstream request issued (if any), and the HTTP reply sent.

JavaScript runtime values reachable in the handlers are modelled by `JVal`
(JSON values plus `undefined`); machine details that the handlers rely on
(strict equality `===`, falsiness `!x`, template-string interpolation,
`encodeURIComponent`, `URLSearchParams` serialisation, object spread with
field override) are modelled explicitly below.
-/

namespace CalendlyRelay

/-- JavaScript values reachable in the handlers: JSON values plus `undefined`. -/
inductive JVal where
  | null : JVal
  | undefined : JVal
  | bool (b : Bool) : JVal
  | str (s : String) : JVal
  | num (n : Int) : JVal
  | arr (elems : List JVal) : JVal
  | obj (fields : List (String × JVal)) : JVal
deriving BEq, Repr

/-- JavaScript falsiness (`!x` in the guards): `null`, `undefined`, `false`,
`0` and the empty string are falsy; objects and arrays are always truthy. -/
def jsFalsy : JVal → Bool
  | .null => true
  | .undefined => true
  | .bool b => !b
  | .str s => s == ""
  | .num n => n == 0
  | .arr _ => false
  | .obj _ => false

/-- JavaScript string conversion, as used by template-string interpolation
(`Bearer ${token}`). Arrays join their elements with commas, with `null` and
`undefined` elements rendered empty (a nested array is approximated by the
empty string; no handler ever interpolates one); plain objects render as
`[object Object]`. -/
def jsToString : JVal → String
  | .null => "null"
  | .undefined => "undefined"
  | .bool true => "true"
  | .bool false => "false"
  | .str s => s
  | .num n => toString n
  | .arr es => String.intercalate ","
      (es.map fun e =>
        match e with
        | .null => ""
        | .undefined => ""
        | .bool true => "true"
        | .bool false => "false"
        | .str s => s
        | .num n => toString n
        | .arr _ => ""
        | .obj _ => "[object Object]")
  | .obj _ => "[object Object]"

/-- A query/path parameter as fastify hands it to the handler: a string when
present, `undefined` when absent. -/
def queryVal : Option String → JVal
  | none => .undefined
  | some s => .str s

/-- A present-but-empty or absent parameter is falsy (`!user`, `!storedToken`). -/
def missingParam : Option String → Bool
  | none => true
  | some s => s == ""

/-- JS property access `v.k` for the non-throwing receivers: field lookup on
objects, `undefined` on every other non-nullish value. (Access on `null` or
`undefined` throws; the one place the source may do that is handled at its
call site in `callbackHandler`.) -/
def getField (v : JVal) (k : String) : JVal :=
  match v with
  | .obj fields =>
    match fields.lookup k with
    | some x => x
    | none => .undefined
  | _ => .undefined

/-- Object spread followed by a field override, `\x7b...o, k: v\x7d`: an
existing field keeps its position and gets the new value; a fresh field is
appended at the end. -/
def setField (fields : List (String × JVal)) (k : String) (v : JVal) : List (String × JVal) :=
  if (fields.map Prod.fst).contains k then
    fields.map fun p => if p.fst == k then (k, v) else p
  else
    fields ++ [(k, v)]

/-- Upper-case hexadecimal digit, for percent-encoding. -/
def hexDigit (n : Nat) : Char :=
  if n < 10 then Char.ofNat (48 + n) else Char.ofNat (55 + n)

/-- `%XY` escape of one byte. -/
def percentByte (b : Nat) : String :=
  "%" ++ String.singleton (hexDigit (b / 16 % 16)) ++ String.singleton (hexDigit (b % 16))

/-- UTF-8 bytes of one character, computed from its code point. -/
def utf8Bytes (c : Char) : List Nat :=
  let n := c.toNat
  if n < 128 then [n]
  else if n < 2048 then [192 + n / 64, 128 + n % 64]
  else if n < 65536 then [224 + n / 4096, 128 + n / 64 % 64, 128 + n % 64]
  else [240 + n / 262144, 128 + n / 4096 % 64, 128 + n / 64 % 64, 128 + n % 64]

/-- Characters `encodeURIComponent` leaves unescaped:
alphanumerics and `- _ . ! ~ * ( )` and the apostrophe (U+0027). -/
def uriUnescaped (c : Char) : Bool :=
  c.isAlphanum || c == '-' || c == '_' || c == '.' || c == '!' || c == '~' ||
    c == '*' || c == '(' || c == ')' || c == Char.ofNat 39

/-- JavaScript `encodeURIComponent`. -/
def encodeURIComponent (s : String) : String :=
  String.join (s.toList.map fun c =>
    if uriUnescaped c then String.singleton c
    else String.join ((utf8Bytes c).map percentByte))

/-- Characters the `application/x-www-form-urlencoded` serialiser
(`URLSearchParams.toString`) leaves unescaped: alphanumerics and `* - . _`. -/
def formSafe (c : Char) : Bool :=
  c.isAlphanum || c == '*' || c == '-' || c == '.' || c == '_'

/-- One character under the `x-www-form-urlencoded` serialiser:
safe characters kept, space becomes `+`, everything else percent-escaped. -/
def formEncodeChar (c : Char) : String :=
  if formSafe c then String.singleton c
  else if c == ' ' then "+"
  else String.join ((utf8Bytes c).map percentByte)

/-- `x-www-form-urlencoded` escaping of one string. -/
def formEncode (s : String) : String :=
  String.join (s.toList.map formEncodeChar)

/-- `new URLSearchParams(query).toString()`: `k=v` pairs in order,
joined by `&`, both sides form-encoded. -/
def toQueryString (q : List (String × String)) : String :=
  String.intercalate "&" (q.map fun p => formEncode p.fst ++ "=" ++ formEncode p.snd)

/-- The upstream HTTP request a handler issues through `fetch`. -/
structure UpstreamRequest where
  method : String
  url : String
  headers : List (String × String)
  body : Option JVal
deriving Repr

/-- Outcome of one upstream `fetch` together with `response.json()`:
either both succeed, giving the HTTP status and the parsed JSON body,
or one of them throws. -/
inductive FetchResult where
  | ok (status : Nat) (body : JVal) : FetchResult
  | err : FetchResult
deriving Repr

/-- `response.ok` of the fetch API: status in the range 200..299. -/
def respOk (status : Nat) : Bool :=
  200 ≤ status && status ≤ 299

/-- The reply a handler sends: `reply.send` (with explicit or default-200
status) or `reply.redirect` (status 302). -/
inductive ReplyAction where
  | send (status : Nat) (body : JVal) : ReplyAction
  | redirect (location : String) : ReplyAction
deriving Repr

/-- HTTP status of a reply; fastify redirects default to 302. -/
def replyStatus : ReplyAction → Nat
  | .send s _ => s
  | .redirect _ => 302

/-- What one handler invocation did: the value of the global `storedToken`
variable afterwards, the upstream request issued (`none` when a guard
short-circuited before `fetch`), and the reply sent. -/
structure HandlerResult where
  newToken : JVal
  upstreamReq : Option UpstreamRequest
  reply : ReplyAction
deriving Repr

/-- `\x7berror: msg\x7d` reply body. -/
def errBody (msg : String) : JVal :=
  .obj [("error", .str msg)]

/-- The 401 reply shared by every stored-token guard. -/
def noTokenReply : ReplyAction :=
  .send 401 (errBody "No token stored yet")

/-- The header pair every forwarding handler attaches:
`Authorization: Bearer <token>` (template interpolation of the token value)
and `Content-Type: application/json`. -/
def authHeaders (tok : JVal) : List (String × String) :=
  [("Authorization", "Bearer " ++ jsToString tok), ("Content-Type", "application/json")]

/-- Environment configuration read by the OAuth routes
(`process.env` values: a string when set, `undefined` otherwise). -/
structure Env where
  clientId : Option String
  clientSecret : Option String
  redirectUri : Option String

/-- `JSON.stringify` on an object literal omits fields whose value is
`undefined`. -/
def stringifyFields (fields : List (String × JVal)) : List (String × JVal) :=
  fields.filter fun p =>
    match p.snd with
    | .undefined => false
    | _ => true

/-- The token-exchange request `GET /callback` posts to the provider. -/
def tokenExchangeRequest (e : Env) (code : Option String) : UpstreamRequest :=
  { method := "POST"
    url := "https://auth.calendly.com/oauth/token"
    headers := [("Content-Type", "application/json")]
    body := some (.obj (stringifyFields
      [("grant_type", .str "authorization_code"),
       ("client_id", queryVal e.clientId),
       ("client_secret", queryVal e.clientSecret),
       ("code", queryVal code),
       ("redirect_uri", queryVal e.redirectUri)])) }

/-- `GET /callback`: exchange the `code` query parameter for a token.
If the fetch and the JSON parse succeed, `storedToken = data.access_token`
runs: on a `null` body the property access throws into the catch block
(reply 500, token unchanged); otherwise the token variable is overwritten
with the `access_token` field and the reply is a redirect to
`/dashboard.html`. If the fetch or the parse throws, the catch block
replies 500 with a generic body and the token is unchanged. -/
def callbackHandler (e : Env) (code : Option String) (storedToken : JVal)
    (f : FetchResult) : HandlerResult :=
  let req := tokenExchangeRequest e code
  match f with
  | .err => ⟨storedToken, some req, .send 500 (errBody "Token exchange failed")⟩
  | .ok _ data =>
    match data with
    | .null => ⟨storedToken, some req, .send 500 (errBody "Token exchange failed")⟩
    | _ => ⟨getField data "access_token", some req, .redirect "/dashboard.html"⟩

/-- `GET /me?token=`: no guard at all; always fetches `/users/me` with
`Authorization: Bearer ${req.query.token}` (the literal `Bearer undefined`
when the parameter is absent). The global token variable is untouched. -/
def meHandler (storedToken : JVal) (tokenParam : Option String)
    (f : FetchResult) : HandlerResult :=
  let req : UpstreamRequest :=
    { method := "GET"
      url := "https://api.calendly.com/users/me"
      headers := authHeaders (queryVal tokenParam)
      body := none }
  match f with
  | .ok _ data => ⟨storedToken, some req, .send 200 data⟩
  | .err => ⟨storedToken, some req, .send 500 (errBody "Failed to fetch user info")⟩

/-- `GET /me-from-store`: 401 when the stored token is falsy, otherwise
fetch `/users/me` with the stored bearer token and relay the JSON body
(default 200), or 500 if the fetch or parse throws. -/
def meFromStoreHandler (storedToken : JVal) (f : FetchResult) : HandlerResult :=
  if jsFalsy storedToken then ⟨storedToken, none, noTokenReply⟩
  else
    let req : UpstreamRequest :=
      { method := "GET"
        url := "https://api.calendly.com/users/me"
        headers := authHeaders storedToken
        body := none }
    match f with
    | .ok _ data => ⟨storedToken, some req, .send 200 data⟩
    | .err => ⟨storedToken, some req, .send 500 (errBody "Failed to fetch user info")⟩

/-- `GET /locations?user=`: 401 when the stored token is falsy; then 400
when the `user` query parameter is falsy (absent or empty); otherwise fetch
`/locations?user=<encodeURIComponent(user)>` and relay the JSON body
(default 200), or 500 on a throw. -/
def locationsHandler (storedToken : JVal) (user : Option String)
    (f : FetchResult) : HandlerResult :=
  if jsFalsy storedToken then ⟨storedToken, none, noTokenReply⟩
  else if missingParam user then
    ⟨storedToken, none, .send 400 (errBody "Missing user URI")⟩
  else
    let req : UpstreamRequest :=
      { method := "GET"
        url := "https://api.calendly.com/locations?user=" ++
          encodeURIComponent ((user.getD ""))
        headers := authHeaders storedToken
        body := none }
    match f with
    | .ok _ data => ⟨storedToken, some req, .send 200 data⟩
    | .err => ⟨storedToken, some req, .send 500 (errBody "Failed to fetch locations")⟩

/-- The strict-equality test `v === true || v === "true"` applied to the
`active` field by `POST /create-event-type`: strict equality against a
literal holds exactly for a value of the same type and content. -/
def coerceActive : JVal → Bool
  | .bool true => true
  | .str s => s == "true"
  | _ => false

/-- The body `POST /create-event-type` forwards: the inbound JSON object
spread, with `active` overridden by the strict-boolean coercion
`req.body.active === true || req.body.active === "true"`. -/
def createForwardBody (body : List (String × JVal)) : List (String × JVal) :=
  setField body "active"
    (.bool (coerceActive (getField (.obj body) "active")))

/-- `POST /create-event-type`: 401 when the stored token is falsy; otherwise
POST the coerced body to `/event_types`; a non-ok upstream status is relayed
with its body, an ok one is relayed with default 200, a throw yields 500. -/
def createEventTypeHandler (storedToken : JVal) (body : List (String × JVal))
    (f : FetchResult) : HandlerResult :=
  if jsFalsy storedToken then ⟨storedToken, none, noTokenReply⟩
  else
    let req : UpstreamRequest :=
      { method := "POST"
        url := "https://api.calendly.com/event_types"
        headers := authHeaders storedToken
        body := some (.obj (createForwardBody body)) }
    match f with
    | .ok s data =>
      if respOk s then ⟨storedToken, some req, .send 200 data⟩
      else ⟨storedToken, some req, .send s data⟩
    | .err => ⟨storedToken, some req, .send 500 (errBody "Failed to create event type")⟩

/-- `GET /list-event-types`: 401 when the stored token is falsy; otherwise
GET `/event_types?<URLSearchParams(req.query)>` and relay the JSON body
(default 200), or 500 on a throw. -/
def listEventTypesHandler (storedToken : JVal) (query : List (String × String))
    (f : FetchResult) : HandlerResult :=
  if jsFalsy storedToken then ⟨storedToken, none, noTokenReply⟩
  else
    let req : UpstreamRequest :=
      { method := "GET"
        url := "https://api.calendly.com/event_types?" ++ toQueryString query
        headers := authHeaders storedToken
        body := none }
    match f with
    | .ok _ data => ⟨storedToken, some req, .send 200 data⟩
    | .err => ⟨storedToken, some req, .send 500 (errBody "Failed to list event types")⟩

/-- `PATCH /update-event-type/:uuid`: 401 when the stored token is falsy;
otherwise PATCH the inbound body through to `/event_types/<uuid>`; a non-ok
upstream status is relayed with its body, an ok one with default 200, a
throw yields 500. -/
def updateEventTypeHandler (storedToken : JVal) (uuid : String) (body : JVal)
    (f : FetchResult) : HandlerResult :=
  if jsFalsy storedToken then ⟨storedToken, none, noTokenReply⟩
  else
    let req : UpstreamRequest :=
      { method := "PATCH"
        url := "https://api.calendly.com/event_types/" ++ uuid
        headers := authHeaders storedToken
        body := some body }
    match f with
    | .ok s data =>
      if respOk s then ⟨storedToken, some req, .send 200 data⟩
      else ⟨storedToken, some req, .send s data⟩
    | .err => ⟨storedToken, some req, .send 500 (errBody "Failed to update event type")⟩

/-- `PATCH /update-event-availability`: 401 when the stored token is falsy;
otherwise PATCH the inbound body to `/event_type_availability_schedules`;
a non-ok upstream status is relayed with its body, an ok one with default
200, a throw yields 500. -/
def updateEventAvailabilityHandler (storedToken : JVal) (body : JVal)
    (f : FetchResult) : HandlerResult :=
  if jsFalsy storedToken then ⟨storedToken, none, noTokenReply⟩
  else
    let req : UpstreamRequest :=
      { method := "PATCH"
        url := "https://api.calendly.com/event_type_availability_schedules"
        headers := authHeaders storedToken
        body := some body }
    match f with
    | .ok s data =>
      if respOk s then ⟨storedToken, some req, .send 200 data⟩
      else ⟨storedToken, some req, .send s data⟩
    | .err => ⟨storedToken, some req, .send 500 (errBody "Failed to update availability")⟩

/-! ### Helper lemmas: the upstream request each forwarding handler issues -/

theorem meFromStore_req (tok : JVal) (f : FetchResult) (r : UpstreamRequest)
    (h : (meFromStoreHandler tok f).upstreamReq = some r) :
    r = ⟨"GET", "https://api.calendly.com/users/me", authHeaders tok, none⟩ := by
  by_cases htok : jsFalsy tok = true
  · simp [meFromStoreHandler, htok] at h
  · rw [Bool.not_eq_true] at htok
    cases f <;> simp [meFromStoreHandler, htok] at h <;> exact h.symm

theorem locations_req (tok : JVal) (user : Option String) (f : FetchResult)
    (r : UpstreamRequest) (h : (locationsHandler tok user f).upstreamReq = some r) :
    r = ⟨"GET", "https://api.calendly.com/locations?user=" ++
          encodeURIComponent (user.getD ""), authHeaders tok, none⟩ := by
  by_cases htok : jsFalsy tok = true
  · simp [locationsHandler, htok] at h
  · rw [Bool.not_eq_true] at htok
    by_cases hu : missingParam user = true
    · simp [locationsHandler, htok, hu] at h
    · rw [Bool.not_eq_true] at hu
      cases f <;> simp [locationsHandler, htok, hu] at h <;> exact h.symm

theorem createEventType_req (tok : JVal) (b : List (String × JVal)) (f : FetchResult)
    (r : UpstreamRequest) (h : (createEventTypeHandler tok b f).upstreamReq = some r) :
    r = ⟨"POST", "https://api.calendly.com/event_types", authHeaders tok,
          some (.obj (createForwardBody b))⟩ := by
  by_cases htok : jsFalsy tok = true
  · simp [createEventTypeHandler, htok] at h
  · rw [Bool.not_eq_true] at htok
    cases f with
    | err => simp [createEventTypeHandler, htok] at h; exact h.symm
    | ok s d =>
      by_cases hs : respOk s = true <;>
        simp [createEventTypeHandler, htok, hs] at h <;> exact h.symm

theorem listEventTypes_req (tok : JVal) (q : List (String × String)) (f : FetchResult)
    (r : UpstreamRequest) (h : (listEventTypesHandler tok q f).upstreamReq = some r) :
    r = ⟨"GET", "https://api.calendly.com/event_types?" ++ toQueryString q,
          authHeaders tok, none⟩ := by
  by_cases htok : jsFalsy tok = true
  · simp [listEventTypesHandler, htok] at h
  · rw [Bool.not_eq_true] at htok
    cases f <;> simp [listEventTypesHandler, htok] at h <;> exact h.symm

theorem updateEventType_req (tok : JVal) (uuid : String) (b : JVal) (f : FetchResult)
    (r : UpstreamRequest) (h : (updateEventTypeHandler tok uuid b f).upstreamReq = some r) :
    r = ⟨"PATCH", "https://api.calendly.com/event_types/" ++ uuid,
          authHeaders tok, some b⟩ := by
  by_cases htok : jsFalsy tok = true
  · simp [updateEventTypeHandler, htok] at h
  · rw [Bool.not_eq_true] at htok
    cases f with
    | err => simp [updateEventTypeHandler, htok] at h; exact h.symm
    | ok s d =>
      by_cases hs : respOk s = true <;>
        simp [updateEventTypeHandler, htok, hs] at h <;> exact h.symm

theorem updateEventAvailability_req (tok : JVal) (b : JVal) (f : FetchResult)
    (r : UpstreamRequest) (h : (updateEventAvailabilityHandler tok b f).upstreamReq = some r) :
    r = ⟨"PATCH", "https://api.calendly.com/event_type_availability_schedules",
          authHeaders tok, some b⟩ := by
  by_cases htok : jsFalsy tok = true
  · simp [updateEventAvailabilityHandler, htok] at h
  · rw [Bool.not_eq_true] at htok
    cases f with
    | err => simp [updateEventAvailabilityHandler, htok] at h; exact h.symm
    | ok s d =>
      by_cases hs : respOk s = true <;>
        simp [updateEventAvailabilityHandler, htok, hs] at h <;> exact h.symm

/-- The `Authorization` header built from a string token carries that exact
token after `Bearer `. -/
theorem authHeaders_str (t : String) :
    ("Authorization", "Bearer " ++ t) ∈ authHeaders (JVal.str t) := by
  simp [authHeaders, jsToString]

/-! ### Helper lemmas: no forwarding handler writes the token variable -/

theorem meHandler_newToken (tok : JVal) (tq : Option String) (f : FetchResult) :
    (meHandler tok tq f).newToken = tok := by
  cases f <;> rfl

theorem meFromStore_newToken (tok : JVal) (f : FetchResult) :
    (meFromStoreHandler tok f).newToken = tok := by
  unfold meFromStoreHandler
  split
  · rfl
  · cases f <;> rfl

theorem locations_newToken (tok : JVal) (user : Option String) (f : FetchResult) :
    (locationsHandler tok user f).newToken = tok := by
  unfold locationsHandler
  split
  · rfl
  · split
    · rfl
    · cases f <;> rfl

theorem createEventType_newToken (tok : JVal) (b : List (String × JVal))
    (f : FetchResult) : (createEventTypeHandler tok b f).newToken = tok := by
  unfold createEventTypeHandler
  split
  · rfl
  · cases f with
    | err => rfl
    | ok s d =>
      by_cases hs : respOk s = true <;> simp [hs]

theorem listEventTypes_newToken (tok : JVal) (q : List (String × String))
    (f : FetchResult) : (listEventTypesHandler tok q f).newToken = tok := by
  unfold listEventTypesHandler
  split
  · rfl
  · cases f <;> rfl

theorem updateEventType_newToken (tok : JVal) (uuid : String) (b : JVal)
    (f : FetchResult) : (updateEventTypeHandler tok uuid b f).newToken = tok := by
  unfold updateEventTypeHandler
  split
  · rfl
  · cases f with
    | err => rfl
    | ok s d =>
      by_cases hs : respOk s = true <;> simp [hs]

theorem updateEventAvailability_newToken (tok : JVal) (b : JVal)
    (f : FetchResult) : (updateEventAvailabilityHandler tok b f).newToken = tok := by
  unfold updateEventAvailabilityHandler
  split
  · rfl
  · cases f with
    | err => rfl
    | ok s d =>
      by_cases hs : respOk s = true <;> simp [hs]

/-! ### Claim theorems -/

/-- C1 (counterexample): the claim says a `/locations` request without a
`user` parameter replies 400 for every value of the stored token; but with
the initial stored token (`null`) and no `user` parameter the handler
replies 401, not 400, because the token guard runs before the parameter
check. -/
theorem c1_locations_400_counterexample :
    replyStatus (locationsHandler JVal.null none FetchResult.err).reply = 401 ∧
    replyStatus (locationsHandler JVal.null none FetchResult.err).reply ≠ 400 := by
  exact ⟨rfl, by decide⟩

/-- C1 (amended): a `/locations` request lacking the `user` parameter
replies 400 `Missing user URI` whenever a (truthy) stored token is present,
for every fetch outcome; with no stored token it replies 401 instead. -/
theorem c1_locations_missing_user (tok : JVal) (f : FetchResult)
    (ht : jsFalsy tok = false) :
    (locationsHandler tok none f).reply
      = ReplyAction.send 400 (errBody "Missing user URI") ∧
    (locationsHandler JVal.null none f).reply
      = ReplyAction.send 401 (errBody "No token stored yet") := by
  constructor
  · simp [locationsHandler, ht, missingParam, noTokenReply]
  · cases f <;> rfl

/-- C1 (amended, witness): instantiated at a concrete stored token. -/
theorem c1_locations_missing_user_witness :
    (locationsHandler (JVal.str "tok") none FetchResult.err).reply
      = ReplyAction.send 400 (errBody "Missing user URI") ∧
    (locationsHandler JVal.null none FetchResult.err).reply
      = ReplyAction.send 401 (errBody "No token stored yet") :=
  c1_locations_missing_user (JVal.str "tok") FetchResult.err (by decide)

/-- C2: with the initial stored token (`null`, i.e. no successful `/callback`
has run), every token-guarded endpoint replies 401 with
`\x7berror: "No token stored yet"\x7d`, issues no upstream request, and
leaves the stored token unchanged. -/
theorem c2_no_token_guard (f : FetchResult) (user : Option String)
    (b : List (String × JVal)) (q : List (String × String)) (uuid : String)
    (b2 b3 : JVal) :
    meFromStoreHandler JVal.null f
      = ⟨JVal.null, none, .send 401 (errBody "No token stored yet")⟩ ∧
    locationsHandler JVal.null user f
      = ⟨JVal.null, none, .send 401 (errBody "No token stored yet")⟩ ∧
    createEventTypeHandler JVal.null b f
      = ⟨JVal.null, none, .send 401 (errBody "No token stored yet")⟩ ∧
    listEventTypesHandler JVal.null q f
      = ⟨JVal.null, none, .send 401 (errBody "No token stored yet")⟩ ∧
    updateEventTypeHandler JVal.null uuid b2 f
      = ⟨JVal.null, none, .send 401 (errBody "No token stored yet")⟩ ∧
    updateEventAvailabilityHandler JVal.null b3 f
      = ⟨JVal.null, none, .send 401 (errBody "No token stored yet")⟩ :=
  ⟨rfl, rfl, rfl, rfl, rfl, rfl⟩

/-- C4: for the create/update endpoints, an upstream response whose status
is not ok (outside 200..299) is relayed with exactly that status and exactly
the upstream JSON body, whenever a (truthy) stored token is present. -/
theorem c4_relay_upstream_failure (tok : JVal) (b : List (String × JVal))
    (uuid : String) (b2 b3 : JVal) (s : Nat) (d : JVal)
    (ht : jsFalsy tok = false) (hs : respOk s = false) :
    (createEventTypeHandler tok b (.ok s d)).reply = .send s d ∧
    (updateEventTypeHandler tok uuid b2 (.ok s d)).reply = .send s d ∧
    (updateEventAvailabilityHandler tok b3 (.ok s d)).reply = .send s d := by
  refine ⟨?_, ?_, ?_⟩ <;>
    simp [createEventTypeHandler, updateEventTypeHandler,
      updateEventAvailabilityHandler, ht, hs]

/-- C4 (witness): an upstream 422 with a concrete body on
`/update-event-type/:uuid` (and the other two endpoints) is relayed as 422
with the identical body. -/
theorem c4_relay_upstream_failure_witness :
    (createEventTypeHandler (JVal.str "t") []
      (.ok 422 (JVal.obj [("message", JVal.str "Invalid")]))).reply
      = .send 422 (JVal.obj [("message", JVal.str "Invalid")]) ∧
    (updateEventTypeHandler (JVal.str "t") "u1" JVal.null
      (.ok 422 (JVal.obj [("message", JVal.str "Invalid")]))).reply
      = .send 422 (JVal.obj [("message", JVal.str "Invalid")]) ∧
    (updateEventAvailabilityHandler (JVal.str "t") JVal.null
      (.ok 422 (JVal.obj [("message", JVal.str "Invalid")]))).reply
      = .send 422 (JVal.obj [("message", JVal.str "Invalid")]) :=
  c4_relay_upstream_failure (JVal.str "t") [] "u1" JVal.null JVal.null 422
    (JVal.obj [("message", JVal.str "Invalid")]) (by decide) (by decide)

/-- C9: `GET /me` has no token guard: for every request (any stored-token
value, any `token` query parameter, any fetch outcome) it issues the
upstream request with `Authorization: Bearer <token parameter>`, its reply
status is never 401, and with the parameter absent the header is the
literal `Bearer undefined`. -/
theorem c9_me_no_guard (tok : JVal) (tq : Option String) (f : FetchResult) :
    (meHandler tok tq f).upstreamReq
      = some ⟨"GET", "https://api.calendly.com/users/me",
          authHeaders (queryVal tq), none⟩ ∧
    replyStatus (meHandler tok tq f).reply ≠ 401 ∧
    authHeaders (queryVal none)
      = [("Authorization", "Bearer undefined"),
         ("Content-Type", "application/json")] := by
  cases f <;> exact ⟨rfl, by simp [meHandler, replyStatus], rfl⟩

/-- C9 (witness): instantiated at a request with no `token` parameter. -/
theorem c9_me_no_guard_witness :
    (meHandler JVal.null none FetchResult.err).upstreamReq
      = some ⟨"GET", "https://api.calendly.com/users/me",
          authHeaders (queryVal none), none⟩ ∧
    replyStatus (meHandler JVal.null none FetchResult.err).reply ≠ 401 ∧
    authHeaders (queryVal none)
      = [("Authorization", "Bearer undefined"),
         ("Content-Type", "application/json")] :=
  c9_me_no_guard JVal.null none FetchResult.err

/-- C10: the read-only forwarding endpoints never relay the upstream
status: whenever the upstream fetch yields parseable JSON, the reply is the
default 200 with that JSON body, whatever the upstream status was. -/
theorem c10_readonly_default_200 (tok : JVal) (tq user : Option String)
    (q : List (String × String)) (s : Nat) (d : JVal)
    (ht : jsFalsy tok = false) (hu : missingParam user = false) :
    (meHandler tok tq (.ok s d)).reply = .send 200 d ∧
    (meFromStoreHandler tok (.ok s d)).reply = .send 200 d ∧
    (locationsHandler tok user (.ok s d)).reply = .send 200 d ∧
    (listEventTypesHandler tok q (.ok s d)).reply = .send 200 d := by
  refine ⟨rfl, ?_, ?_, ?_⟩ <;>
    simp [meFromStoreHandler, locationsHandler, listEventTypesHandler, ht, hu]

/-- C3: every upstream request `/create-event-type` issues carries the
inbound object with the `active` field replaced (in place, or appended when
absent) by a strict boolean; that boolean is true exactly when the inbound
`active` is the boolean `true` or the string `"true"`; concretely, a body
with `active: "true"` forwards with the boolean `active: true`. -/
theorem c3_active_coercion (tok : JVal) (b : List (String × JVal))
    (f : FetchResult) (r : UpstreamRequest)
    (h : (createEventTypeHandler tok b f).upstreamReq = some r) :
    r.body = some (.obj (setField b "active"
      (.bool (coerceActive (getField (.obj b) "active"))))) ∧
    (∀ v, coerceActive v = true ↔ (v = JVal.bool true ∨ v = JVal.str "true")) ∧
    createForwardBody [("name", JVal.str "Intro"), ("active", JVal.str "true")]
      = [("name", JVal.str "Intro"), ("active", JVal.bool true)] := by
  refine ⟨?_, ?_, rfl⟩
  · rw [createEventType_req tok b f r h]; rfl
  · intro v
    cases v with
    | bool bb => cases bb <;> simp [coerceActive]
    | str ss => simp [coerceActive]
    | null => simp [coerceActive]
    | undefined => simp [coerceActive]
    | num nn => simp [coerceActive]
    | arr es => simp [coerceActive]
    | obj fs => simp [coerceActive]

/-- C3 (witness): the coerced forwarded body at a concrete request. -/
theorem c3_active_coercion_witness :
    (⟨"POST", "https://api.calendly.com/event_types", authHeaders (JVal.str "t"),
        some (JVal.obj [("name", JVal.str "Intro"), ("active", JVal.bool true)])⟩
        : UpstreamRequest).body
      = some (JVal.obj (setField
          [("name", JVal.str "Intro"), ("active", JVal.str "true")] "active"
          (JVal.bool (coerceActive (getField
            (JVal.obj [("name", JVal.str "Intro"), ("active", JVal.str "true")])
            "active"))))) :=
  (c3_active_coercion (JVal.str "t")
    [("name", JVal.str "Intro"), ("active", JVal.str "true")]
    (FetchResult.ok 201 JVal.null) _ rfl).1

/-- C5: on `/callback`, a throwing fetch or JSON parse yields a 500 with the
generic body and leaves the stored token unchanged; a successful exchange
(any non-null JSON body) stores the `access_token` field of the body and
redirects to the dashboard page (a JSON-`null` exchange body falls into the
catch block: 500 and token unchanged). -/
theorem c5_callback_exchange (e : Env) (code : Option String) (tok : JVal)
    (s : Nat) (d : JVal) :
    (callbackHandler e code tok FetchResult.err).reply
      = .send 500 (errBody "Token exchange failed") ∧
    (callbackHandler e code tok FetchResult.err).newToken = tok ∧
    (d ≠ JVal.null →
      (callbackHandler e code tok (.ok s d)).newToken
        = getField d "access_token" ∧
      (callbackHandler e code tok (.ok s d)).reply
        = .redirect "/dashboard.html") ∧
    (callbackHandler e code tok (.ok s JVal.null)).reply
      = .send 500 (errBody "Token exchange failed") ∧
    (callbackHandler e code tok (.ok s JVal.null)).newToken = tok := by
  refine ⟨rfl, rfl, ?_, rfl, rfl⟩
  intro hd
  cases d with
  | null => exact absurd rfl hd
  | undefined => exact ⟨rfl, rfl⟩
  | bool bb => exact ⟨rfl, rfl⟩
  | str ss => exact ⟨rfl, rfl⟩
  | num nn => exact ⟨rfl, rfl⟩
  | arr es => exact ⟨rfl, rfl⟩
  | obj fs => exact ⟨rfl, rfl⟩

/-- C5 (witness): a concrete successful exchange stores the returned
access token and redirects. -/
theorem c5_callback_exchange_witness :
    (callbackHandler ⟨some "cid", some "sec", some "ru"⟩ (some "c") JVal.null
        (FetchResult.ok 200 (JVal.obj [("access_token", JVal.str "tkn")]))).newToken
      = getField (JVal.obj [("access_token", JVal.str "tkn")]) "access_token" ∧
    (callbackHandler ⟨some "cid", some "sec", some "ru"⟩ (some "c") JVal.null
        (FetchResult.ok 200 (JVal.obj [("access_token", JVal.str "tkn")]))).reply
      = .redirect "/dashboard.html" :=
  (c5_callback_exchange ⟨some "cid", some "sec", some "ru"⟩ (some "c")
      JVal.null 200 (JVal.obj [("access_token", JVal.str "tkn")])).2.2.1
    (fun hcon => JVal.noConfusion hcon)

/-- C6: after a successful exchange whose body carries `access_token: t`,
the stored token is exactly `JVal.str t`, and every forwarding endpoint
that issues an upstream request under that stored token attaches the header
`Authorization: Bearer t`. -/
theorem c6_stored_bearer (e : Env) (code : Option String) (prev : JVal)
    (s : Nat) (t : String) :
    (callbackHandler e code prev
        (.ok s (JVal.obj [("access_token", JVal.str t)]))).newToken
      = JVal.str t ∧
    (∀ f r, (meFromStoreHandler (JVal.str t) f).upstreamReq = some r →
      ("Authorization", "Bearer " ++ t) ∈ r.headers) ∧
    (∀ u f r, (locationsHandler (JVal.str t) u f).upstreamReq = some r →
      ("Authorization", "Bearer " ++ t) ∈ r.headers) ∧
    (∀ b f r, (createEventTypeHandler (JVal.str t) b f).upstreamReq = some r →
      ("Authorization", "Bearer " ++ t) ∈ r.headers) ∧
    (∀ q f r, (listEventTypesHandler (JVal.str t) q f).upstreamReq = some r →
      ("Authorization", "Bearer " ++ t) ∈ r.headers) ∧
    (∀ uuid b f r,
      (updateEventTypeHandler (JVal.str t) uuid b f).upstreamReq = some r →
      ("Authorization", "Bearer " ++ t) ∈ r.headers) ∧
    (∀ b f r,
      (updateEventAvailabilityHandler (JVal.str t) b f).upstreamReq = some r →
      ("Authorization", "Bearer " ++ t) ∈ r.headers) := by
  refine ⟨rfl, ?_, ?_, ?_, ?_, ?_, ?_⟩
  · intro f r h; rw [meFromStore_req _ _ _ h]; exact authHeaders_str t
  · intro u f r h; rw [locations_req _ _ _ _ h]; exact authHeaders_str t
  · intro b f r h; rw [createEventType_req _ _ _ _ h]; exact authHeaders_str t
  · intro q f r h; rw [listEventTypes_req _ _ _ _ h]; exact authHeaders_str t
  · intro uuid b f r h; rw [updateEventType_req _ _ _ _ _ h]
    exact authHeaders_str t
  · intro b f r h; rw [updateEventAvailability_req _ _ _ _ h]
    exact authHeaders_str t

/-- C6 (witness): a concrete exchange stores the token and `/me-from-store`
under it carries `Authorization: Bearer tkn`. -/
theorem c6_stored_bearer_witness :
    ("Authorization", "Bearer " ++ "tkn") ∈
      (⟨"GET", "https://api.calendly.com/users/me",
          authHeaders (JVal.str "tkn"), none⟩ : UpstreamRequest).headers :=
  (c6_stored_bearer ⟨none, none, none⟩ none JVal.null 200 "tkn").2.1
    (FetchResult.ok 200 JVal.null) _ rfl

/-- C7: every upstream request `/list-event-types` issues targets the
`event_types` endpoint with the serialisation of the full inbound query
string; concretely `count=5&page_token=abc` serialises to itself, both
parameters unchanged. -/
theorem c7_query_passthrough (tok : JVal) (q : List (String × String))
    (f : FetchResult) (r : UpstreamRequest)
    (h : (listEventTypesHandler tok q f).upstreamReq = some r) :
    r.url = "https://api.calendly.com/event_types?" ++ toQueryString q ∧
    toQueryString [("count", "5"), ("page_token", "abc")]
      = "count=5&page_token=abc" := by
  refine ⟨?_, rfl⟩
  rw [listEventTypes_req _ _ _ _ h]

/-- C7 (witness): the forwarded URL at the concrete query
`?count=5&page_token=abc`. -/
theorem c7_query_passthrough_witness :
    (⟨"GET", "https://api.calendly.com/event_types?count=5&page_token=abc",
        authHeaders (JVal.str "t"), none⟩ : UpstreamRequest).url
      = "https://api.calendly.com/event_types?" ++
          toQueryString [("count", "5"), ("page_token", "abc")] :=
  (c7_query_passthrough (JVal.str "t") [("count", "5"), ("page_token", "abc")]
    (FetchResult.ok 200 JVal.null) _ rfl).1

/-- C8: the stored token is a single variable written only by a successful
`/callback` (which overwrites the prior value with the `access_token`
field of the exchange body); every forwarding endpoint leaves it unchanged, on success
and on failure alike. -/
theorem c8_token_frame (tok : JVal) (e : Env) (code tq user : Option String)
    (b : List (String × JVal)) (q : List (String × String)) (uuid : String)
    (b2 b3 : JVal) (f : FetchResult) :
    (meHandler tok tq f).newToken = tok ∧
    (meFromStoreHandler tok f).newToken = tok ∧
    (locationsHandler tok user f).newToken = tok ∧
    (createEventTypeHandler tok b f).newToken = tok ∧
    (listEventTypesHandler tok q f).newToken = tok ∧
    (updateEventTypeHandler tok uuid b2 f).newToken = tok ∧
    (updateEventAvailabilityHandler tok b3 f).newToken = tok ∧
    (callbackHandler e code tok FetchResult.err).newToken = tok ∧
    (∀ s d, d ≠ JVal.null →
      (callbackHandler e code tok (FetchResult.ok s d)).newToken
        = getField d "access_token") := by
  refine ⟨meHandler_newToken tok tq f, meFromStore_newToken tok f,
    locations_newToken tok user f, createEventType_newToken tok b f,
    listEventTypes_newToken tok q f, updateEventType_newToken tok uuid b2 f,
    updateEventAvailability_newToken tok b3 f, rfl, ?_⟩
  intro s d hd
  cases d with
  | null => exact absurd rfl hd
  | undefined => rfl
  | bool bb => rfl
  | str ss => rfl
  | num nn => rfl
  | arr es => rfl
  | obj fs => rfl

/-- C8 (witness): a later successful callback silently overwrites a
previously stored token. -/
theorem c8_token_frame_witness :
    (callbackHandler ⟨none, none, none⟩ none (JVal.str "old")
        (FetchResult.ok 200 (JVal.obj [("access_token", JVal.str "new")]))).newToken
      = getField (JVal.obj [("access_token", JVal.str "new")]) "access_token" :=
  (c8_token_frame (JVal.str "old") ⟨none, none, none⟩ none none none [] [] "u"
      JVal.null JVal.null FetchResult.err).2.2.2.2.2.2.2.2 200
    (JVal.obj [("access_token", JVal.str "new")])
    (fun hcon => JVal.noConfusion hcon)

/-- C10 (witness): an upstream 500 with a JSON body on the read-only
endpoints is relayed as a 200 with that body. -/
theorem c10_readonly_default_200_witness :
    (meHandler (JVal.str "t") none (.ok 500 (JVal.obj []))).reply
      = .send 200 (JVal.obj []) ∧
    (meFromStoreHandler (JVal.str "t") (.ok 500 (JVal.obj []))).reply
      = .send 200 (JVal.obj []) ∧
    (locationsHandler (JVal.str "t") (some "u") (.ok 500 (JVal.obj []))).reply
      = .send 200 (JVal.obj []) ∧
    (listEventTypesHandler (JVal.str "t") [] (.ok 500 (JVal.obj []))).reply
      = .send 200 (JVal.obj []) :=
  c10_readonly_default_200 (JVal.str "t") none (some "u") [] 500 (JVal.obj [])
    (by decide) (by decide)

end CalendlyRelay
